import Mathlib

/-!
# Verification of the deciles-chart measure-table pipeline

Shallow embedding of `deciles_chart/core.py`: the measure-file discovery
generator (`get_measure_tables`), the metadata helpers (`_get_denominator`,
`_get_group_by`), the validator decorator (`is_measure_table`) and the row
filter (`drop_rows`), together with a small store model for the aliasing
behaviour of pandas boolean-mask selection (documented by
`test_drop_zero_denominator_rows`), and a spec-modelled decile aggregator
(`get_deciles_table`, whose implementation is exercised only through its
test in this tree).

Numbers are embedded as `Int` (pandas integer columns) and `ℚ`
(floating-point columns; the values the claims touch are exactly
representable). Python dictionaries (`DataFrame.attrs`) are association
lists in insertion order. Python exceptions are the inductive `PyErr`.
-/

/-- A cell value of a parsed table. `date` holds an ordinal day number (the
`date` column is parsed by `pandas.read_csv(..., parse_dates=["date"])`).
`na` is used only as an out-of-range default and is never produced by the
embedded operations. -/
inductive Value
  | int (i : Int)
  | float (q : ℚ)
  | str (s : String)
  | date (d : Int)
  | na
deriving DecidableEq

/-- A value stored in `DataFrame.attrs`: the code stores strings (`id`,
`denominator`) and lists of strings (`group_by`). -/
inductive AttrVal
  | str (s : String)
  | strList (l : List String)
deriving DecidableEq

/-- `attrs` dictionary: association list in insertion order. -/
abbrev Attrs := List (String × AttrVal)

/-- Python `d[k]` / `k in d` lookup: the binding of `k` (keys are unique,
as in a Python dict). -/
def dict_get (d : Attrs) (k : String) : Option AttrVal :=
  match d with
  | [] => none
  | p :: rest => if p.1 == k then some p.2 else dict_get rest k

/-- Python `d[k] = v`: update in place if present, else append (insertion
order is preserved, as in a Python dict). -/
def dict_set (d : Attrs) (k : String) (v : AttrVal) : Attrs :=
  match d with
  | [] => [(k, v)]
  | p :: rest => if p.1 == k then (k, v) :: rest else p :: dict_set rest k v

/-- A `pandas.DataFrame` as the pipeline sees it: a column index (names in
order), rows of cells (one cell per column), and the out-of-band `attrs`
dictionary. -/
structure DataFrame where
  columns : List String
  rows : List (List Value)
  attrs : Attrs
deriving DecidableEq

/-- Python exceptions raised by the embedded code paths. -/
inductive PyErr
  /-- `raise AttributeError()` in `get_measure_tables` when the path is not
  a directory; spec §7 names this condition `InvalidInputError`. -/
  | attributeError
  /-- `columns[-3]` on an index of fewer than three columns. -/
  | indexError
  /-- missing dictionary key or missing column label. -/
  | keyError
  /-- unsupported comparison (e.g. a non-numeric series compared with 0). -/
  | typeError
deriving DecidableEq

/-- `\w` for the filenames the action sees (ASCII letters, digits,
underscore). -/
def isWordChar (c : Char) : Bool :=
  c.isAlphanum || c == '_'

/-- `re.match(MEASURE_FNAME_REGEX, name)` with
`MEASURE_FNAME_REGEX = re.compile(r"measure_(?P<id>\w+)\.csv")`, returning
the captured `id` group. `re.match` anchors at the start of the string
only: trailing characters after `.csv` are allowed. The greedy `\w+` needs
no backtracking here: shortening the run would leave a word character where
the literal `.` must match, so only the maximal word-character run can
succeed. -/
def measure_fname_match (name : String) : Option String :=
  let cs := name.toList
  if cs.take 8 = "measure_".toList then
    let rest := cs.drop 8
    let run := rest.takeWhile isWordChar
    let after := rest.dropWhile isWordChar
    if run ≠ [] ∧ ".csv".toList.isPrefixOf after then
      some (String.mk run)
    else
      none
  else
    none

/-- `measure_table.columns[-3]`: third-from-last column name; Python raises
`IndexError` when the index has fewer than three entries. -/
def _get_denominator (t : DataFrame) : Except PyErr String :=
  if 3 ≤ t.columns.length then
    match t.columns.get? (t.columns.length - 3) with
    | some c => Except.ok c
    | none => Except.error PyErr.indexError
  else
    Except.error PyErr.indexError

/-- `list(measure_table.columns[:-4])`: all columns but the last four
(Python slices clamp, so fewer than four columns gives `[]`). -/
def _get_group_by (t : DataFrame) : List String :=
  t.columns.take (t.columns.length - 4)

/-- The filesystem as `get_measure_tables` probes it: a path resolves to a
regular file or a directory of named entries. `pandas.read_csv(path,
parse_dates=["date"])` is modelled as returning the typed table stored in
the `file` node (spec §4.1 makes the `date` column an external contract:
"this column is always present and assigned by the upstream producer"). -/
inductive FsNode
  | file (content : DataFrame)
  | dir (entries : List (String × FsNode))

/-- `path.is_dir()`. -/
def FsNode.isDir : FsNode → Bool
  | .dir _ => true
  | .file _ => false

/-- `sub_path.is_file()`. -/
def FsNode.isFile : FsNode → Bool
  | .file _ => true
  | .dir _ => false

/-- The metadata-attachment block of `get_measure_tables`, run on one
matching file: sets `attrs["id"]`, `attrs["denominator"]` and
`attrs["group_by"]` in that order; `_get_denominator` can raise
`IndexError`, in which case the yield never happens. -/
def attach_attrs (mid : String) (t : DataFrame) : Except PyErr DataFrame :=
  match _get_denominator t with
  | Except.error e => Except.error e
  | Except.ok den =>
      Except.ok
        { t with
          attrs :=
            dict_set
              (dict_set (dict_set t.attrs "id" (AttrVal.str mid))
                "denominator" (AttrVal.str den))
              "group_by" (AttrVal.strList (_get_group_by t)) }

/-- The loop body of `get_measure_tables` on one directory entry:
`none` means the entry is skipped (not a regular file, or the filename does
not match the regex); otherwise the parsed table with attached metadata, or
the exception that aborted the iteration. -/
def process_entry : String × FsNode → Option (Except PyErr DataFrame)
  | (_, FsNode.dir _) => none
  | (name, FsNode.file content) =>
    match measure_fname_match name with
    | none => none
    | some mid => some (attach_attrs mid content)

/-- Iterating the generator over the directory entries: the list of tables
yielded before the generator either finishes (`none`) or raises (`some e`,
at which point iteration stops and nothing further is yielded). -/
def run_entries : List (String × FsNode) → List DataFrame × Option PyErr
  | [] => ([], none)
  | e :: es =>
    match process_entry e with
    | none => run_entries es
    | some (Except.error pe) => ([], some pe)
    | some (Except.ok t) =>
      let rest := run_entries es
      (t :: rest.1, rest.2)

/-- Exhausting the generator returned by `get_measure_tables(path)`:
`path` is `none` when it does not exist. The `if not path.is_dir(): raise
AttributeError()` check runs on first access; a non-directory path yields
nothing and raises at once. -/
def get_measure_tables : Option FsNode → List DataFrame × Option PyErr
  | some (FsNode.dir entries) => run_entries entries
  | _ => ([], some PyErr.attributeError)

/-- The generator object itself: calling `get_measure_tables(path)` in
Python runs none of the body, it only suspends the argument. Creation is
total by construction; all checks happen in `MeasureGen.run`. -/
structure MeasureGen where
  target : Option FsNode

/-- Calling `get_measure_tables(path)`: builds the suspended generator,
performing no filesystem access and raising nothing. -/
def get_measure_tables_call (p : Option FsNode) : MeasureGen := ⟨p⟩

/-- First-access-onward behaviour of the suspended generator. -/
def MeasureGen.run (g : MeasureGen) : List DataFrame × Option PyErr :=
  get_measure_tables g.target

/-- The comparison `cell > 0` as pandas evaluates it elementwise:
defined for numeric cells, a `TypeError` (`none`) otherwise. -/
def val_gt0 : Value → Option Bool
  | Value.int i => some (decide (0 < i))
  | Value.float q => some (decide (0 < q))
  | _ => none

/-- Position of a column label in the column index (`df[c]` label lookup):
`none` is a pandas `KeyError`. -/
def col_index (cols : List String) (c : String) : Option Nat :=
  match cols with
  | [] => none
  | c' :: rest => if c' == c then some 0 else (col_index rest c).map (· + 1)

/-- Evaluate an elementwise operation over a series, failing if any cell
fails (the whole pandas expression raises). -/
def optTraverse {α β : Type} (g : α → Option β) : List α → Option (List β)
  | [] => some []
  | x :: xs =>
    match g x, optTraverse g xs with
    | some y, some ys => some (y :: ys)
    | _, _ => none

/-- Boolean-mask row selection `df[mask]`: keep the rows whose mask bit is
set, in order. -/
def maskFilter : List (List Value) → List Bool → List (List Value)
  | r :: rs, b :: bs => if b then r :: maskFilter rs bs else maskFilter rs bs
  | _, _ => []

/-- `drop_rows`:
`return measure_table[measure_table[measure_table.attrs["denominator"]] > 0]`.
Looks up the `denominator` attr (Python `KeyError` if absent), selects that
column (pandas `KeyError` if no such column), compares the series with 0
(`TypeError` on non-numeric cells), and keeps the rows whose comparison is
true, in order. pandas propagates `attrs` to the selected frame (as a copy;
the store model below captures the aliasing side). An attrs value that is
not a string is not a column label, hence also a `KeyError`. -/
def drop_rows (t : DataFrame) : Except PyErr DataFrame :=
  match dict_get t.attrs "denominator" with
  | none => Except.error PyErr.keyError
  | some (AttrVal.strList _) => Except.error PyErr.keyError
  | some (AttrVal.str c) =>
    match col_index t.columns c with
    | none => Except.error PyErr.keyError
    | some i =>
      match optTraverse val_gt0 (t.rows.map (fun r => r.getD i Value.na)) with
      | none => Except.error PyErr.typeError
      | some mask => Except.ok ⟨t.columns, maskFilter t.rows mask, t.attrs⟩

/-- The assertion chain of the `is_measure_table` decorator, in source
order; returns the message of the first failing `assert`, if any. -/
def is_measure_table_checks (t : DataFrame) : Option String :=
  if "value" ∉ t.columns then some "Missing value column"
  else if "date" ∉ t.columns then some "Missing date column"
  else if dict_get t.attrs "id" = none then some "Missing id attribute"
  else if dict_get t.attrs "denominator" = none then some "Missing denominator attribute"
  else if dict_get t.attrs "group_by" = none then some "Missing group_by attribute"
  else none

/-- The guarded call `is_measure_table(f)(t, b)`: counts how often the
wrapped `f` runs. The wrapper takes the table from `args[0]`, runs the
assertions, and on success delegates to `f` with the identical arguments,
returning its result unchanged. -/
def is_measure_table {α β : Type} (f : DataFrame → β → α) (t : DataFrame)
    (b : β) : Except String α × Nat :=
  match is_measure_table_checks t with
  | some msg => (Except.error msg, 0)
  | none => (Except.ok (f t b), 1)

/-! ## Store model for object identity

`test_drop_zero_denominator_rows` checks `obs is not measure_table` and
`obs.attrs is not measure_table.attrs`: pandas boolean-mask selection
allocates a fresh frame and a fresh copy of the `attrs` dictionary. To
state those aliasing facts we give frames and attrs dictionaries explicit
addresses. -/

/-- A heap-resident frame: column and row data inline, `attrs` held by
reference (`attrsAddr` indexes `Store.dicts`). -/
structure FrameObj where
  columns : List String
  rows : List (List Value)
  attrsAddr : Nat
deriving DecidableEq

/-- The heap: frames and attrs dictionaries, addressed by position;
allocation appends. -/
structure Store where
  frames : List FrameObj
  dicts : List Attrs
deriving DecidableEq

/-- Dereference a frame address to the `DataFrame` value it denotes. -/
def Store.frameValue (s : Store) (a : Nat) : Option DataFrame :=
  match s.frames.get? a with
  | none => none
  | some fr =>
    match s.dicts.get? fr.attrsAddr with
    | none => none
    | some d => some ⟨fr.columns, fr.rows, d⟩

/-- In-place mutation of the attrs dictionary of the frame at `a`
(e.g. `obs.attrs["k"] = v` on the caller's side). -/
def Store.setFrameAttrs (s : Store) (a : Nat) (d : Attrs) : Option Store :=
  match s.frames.get? a with
  | none => none
  | some fr => some { s with dicts := s.dicts.set fr.attrsAddr d }

/-- `drop_rows` at the heap level: reads the frame at `a`, computes the
selection with the pure `drop_rows`, and — as pandas does — allocates a
fresh frame and a fresh attrs dictionary for the result, leaving the input
objects untouched. -/
def drop_rows_st (a : Nat) (s : Store) : Option (Nat × Store) :=
  match s.frameValue a with
  | none => none
  | some t =>
    match drop_rows t with
    | Except.error _ => none
    | Except.ok t' =>
      some (s.frames.length,
        ⟨s.frames ++ [⟨t'.columns, t'.rows, s.dicts.length⟩],
         s.dicts ++ [t'.attrs]⟩)

/-! ## Decile aggregator (spec-modelled)

`get_deciles_table` is exercised by `src/tests/test_deciles_chart.py` but
its implementation is not in this tree; the definitions below are modelled
from the spec. -/

/-- The nine fixed decile fractions 0.1 … 0.9. -/
def deciles : List ℚ :=
  [1/10, 2/10, 3/10, 4/10, 5/10, 6/10, 7/10, 8/10, 9/10]

/-- Insert into a sorted list of rationals. -/
def insertSorted (x : ℚ) : List ℚ → List ℚ
  | [] => [x]
  | y :: ys => if x ≤ y then x :: y :: ys else y :: insertSorted x ys

/-- Ascending insertion sort on rationals. -/
def sortQ : List ℚ → List ℚ
  | [] => []
  | x :: xs => insertSorted x (sortQ xs)

/-- Modelled from the spec: the quantile estimator of §4.4 — "for fraction
p over n sorted values, interpolate at rank index p·(n−1)" (linear
interpolation between order statistics). -/
def quantile_interp (sorted : List ℚ) (p : ℚ) : ℚ :=
  if sorted.length = 0 then 0
  else
    let h : ℚ := p * ((sorted.length : ℚ) - 1)
    let lo : Nat := (⌊h⌋).toNat
    let frac : ℚ := h - (⌊h⌋ : ℚ)
    let vlo := sorted.getD lo 0
    let vhi := sorted.getD (lo + 1) vlo
    vlo + frac * (vhi - vlo)

/-- Numeric cell as a rational (the float a numeric cell converts to);
`none` on non-numeric cells. -/
def Value.toQ : Value → Option ℚ
  | Value.int i => some (i : ℚ)
  | Value.float q => some q
  | _ => none

/-- Ordering key for grouping by `date` ascending: parsed dates (and plain
numbers) order by their numeric value; the claims only exercise tables
whose `date` column holds parsed dates. -/
def Value.sortKey : Value → Int
  | Value.date d => d
  | Value.int i => i
  | _ => 0

/-- Insert into a list sorted by `Value.sortKey`. -/
def insertByKey (x : Value) : List Value → List Value
  | [] => [x]
  | y :: ys =>
    if x.sortKey ≤ y.sortKey then x :: y :: ys else y :: insertByKey x ys

/-- Sort by `Value.sortKey`, ascending. -/
def sortByKey : List Value → List Value
  | [] => []
  | x :: xs => insertByKey x (sortByKey xs)

/-- Modelled from the spec: `get_deciles_table` is absent from `src/` (only
`test_get_deciles_table` refers to it). Spec §4.4: group rows by `date`;
within each date group compute the value at each of the nine fixed decile
fractions by linear interpolation; output is long-form with columns
`date`, `deciles`, `value`, one row per (date, fraction), dates ascending
and fractions ascending within each date; the decile value is always a
float. Attrs are carried over to the result (the test observes
`group_by` carried over; it cannot distinguish carrying all attrs from
carrying only `group_by`, and the claims checked here do not depend on the
choice). -/
def get_deciles_table (t : DataFrame) : Except PyErr DataFrame :=
  match col_index t.columns "date", col_index t.columns "value" with
  | some di, some vi =>
    match optTraverse (fun r =>
        ((r.getD vi Value.na).toQ).map (fun q => (r.getD di Value.na, q))) t.rows with
    | none => Except.error PyErr.typeError
    | some pairs =>
      let ds := sortByKey ((pairs.map Prod.fst).dedup)
      Except.ok
        ⟨["date", "deciles", "value"],
         ds.flatMap (fun d =>
           let vs := sortQ ((pairs.filter (fun pr => pr.1 == d)).map Prod.snd)
           deciles.map (fun p =>
             [d, Value.float p, Value.float (quantile_interp vs p)])),
         t.attrs⟩
  | _, _ => Except.error PyErr.keyError

/-- Follows the spec's words, for comparison with the code's
`measure_fname_match`: a filename exactly of the form `measure_<id>.csv`
with `<id>` one-or-more word characters — the whole name, nothing
trailing. -/
def spec_exact_measure_name (name : String) : Bool :=
  let cs := name.toList
  let n := cs.length
  decide (cs.take 8 = "measure_".toList) &&
    decide (13 ≤ n) &&
    decide (cs.drop (n - 4) = ".csv".toList) &&
    ((cs.drop 8).take (n - 12)).all isWordChar

/-- The entry outcomes the spec's discovery contract predicts for one
directory entry (used to state what the whole scan yields): skip
non-files and non-matching names, otherwise the parsed table with its
attached metadata. -/
def expected_yield : String × FsNode → Option DataFrame
  | (name, FsNode.file c) =>
    match measure_fname_match name with
    | some mid =>
      match attach_attrs mid c with
      | Except.ok t => some t
      | Except.error _ => none
    | none => none
  | (_, FsNode.dir _) => none

/-- The columns of `measure_sbp_by_practice.csv` in the round-trip test. -/
def exampleCsv : DataFrame :=
  ⟨["practice", "has_sbp_event", "population", "value", "date"], [], []⟩

/-- The table `get_measure_tables` yields for `measure_sbp_by_practice.csv`
with the `exampleCsv` columns: metadata attached in source order. -/
def exampleParsed : DataFrame :=
  ⟨["practice", "has_sbp_event", "population", "value", "date"], [],
   [("id", AttrVal.str "sbp_by_practice"),
    ("denominator", AttrVal.str "population"),
    ("group_by", AttrVal.strList ["practice"])]⟩

/-- The two-row fixture of `test_drop_zero_denominator_rows`. -/
def testFilterTable : DataFrame :=
  ⟨["practice", "has_sbp_event", "population", "value", "date"],
   [[Value.int 1, Value.int 0, Value.int 0, Value.int 0, Value.date 18628],
    [Value.int 2, Value.int 1, Value.int 1, Value.int 1, Value.date 18628]],
   [("denominator", AttrVal.str "population")]⟩

/-- The single-row fixture of `test_get_deciles_table`
(`date 18628` is 2021-01-01 as an ordinal day count). -/
def testSingleRowTable : DataFrame :=
  ⟨["practice", "has_sbp_event", "population", "value", "date"],
   [[Value.int 1, Value.int 1, Value.int 1, Value.int 1, Value.date 18628]],
   [("group_by", AttrVal.strList ["practice"])]⟩

/-- The assertion message `m` correctly names a column or metadata key that
is missing from `t` (the messages are those of the `assert` statements in
`is_measure_table`). -/
def names_missing (t : DataFrame) (m : String) : Prop :=
  (m = "Missing value column" ∧ "value" ∉ t.columns) ∨
  (m = "Missing date column" ∧ "date" ∉ t.columns) ∨
  (m = "Missing id attribute" ∧ dict_get t.attrs "id" = none) ∨
  (m = "Missing denominator attribute" ∧
    dict_get t.attrs "denominator" = none) ∨
  (m = "Missing group_by attribute" ∧ dict_get t.attrs "group_by" = none)

instance (t : DataFrame) (m : String) : Decidable (names_missing t m) := by
  unfold names_missing
  infer_instance

/-- `testFilterTable` after dropping its zero-denominator row. -/
def testFilteredTable : DataFrame :=
  ⟨testFilterTable.columns,
   [[Value.int 2, Value.int 1, Value.int 1, Value.int 1, Value.date 18628]],
   testFilterTable.attrs⟩

/-- A one-frame heap holding `testFilterTable` at address 0, its attrs
dictionary at address 0. -/
def exampleStore : Store :=
  ⟨[⟨testFilterTable.columns, testFilterTable.rows, 0⟩],
   [testFilterTable.attrs]⟩

/-! ## Helper lemmas -/

theorem dict_get_set_self (d : Attrs) (k : String) (v : AttrVal) :
    dict_get (dict_set d k v) k = some v := by
  induction d with
  | nil => simp [dict_set, dict_get]
  | cons p rest ih =>
    by_cases h : p.1 = k
    · simp [dict_set, dict_get, h]
    · simp [dict_set, dict_get, h, ih]

theorem dict_get_set_ne (d : Attrs) (k k' : String) (v : AttrVal)
    (hkk : k ≠ k') : dict_get (dict_set d k v) k' = dict_get d k' := by
  induction d with
  | nil => simp [dict_set, dict_get, hkk]
  | cons p rest ih =>
    by_cases h : p.1 = k
    · simp [dict_set, dict_get, h, hkk]
    · by_cases h' : p.1 = k'
      · simp [dict_set, dict_get, h, h', Ne.symm hkk]
      · simp [dict_set, dict_get, h, h', ih]

theorem col_index_none_of_not_mem (cols : List String) (c : String)
    (h : c ∉ cols) : col_index cols c = none := by
  induction cols with
  | nil => rfl
  | cons c' rest ih =>
    have h1 : c' ≠ c := fun he => h (he ▸ List.mem_cons_self c' rest)
    have h2 : c ∉ rest := fun hm => h (List.mem_cons_of_mem _ hm)
    simp [col_index, h1, ih h2]

theorem optTraverse_eq_map {α β : Type} (g : α → Option β) (f : α → β)
    (l : List α) (h : ∀ x ∈ l, g x = some (f x)) :
    optTraverse g l = some (l.map f) := by
  induction l with
  | nil => rfl
  | cons x xs ih =>
    simp [optTraverse, h x (List.mem_cons_self x xs),
      ih (fun y hy => h y (List.mem_cons_of_mem _ hy))]

theorem maskFilter_map (f : List Value → Bool) (rows : List (List Value)) :
    maskFilter rows (rows.map f) = rows.filter f := by
  induction rows with
  | nil => rfl
  | cons r rs ih =>
    by_cases h : f r <;> simp [maskFilter, List.filter_cons, h, ih]

theorem _get_denominator_ok (t : DataFrame) (h : 3 ≤ t.columns.length) :
    ∃ den, _get_denominator t = Except.ok den ∧
      t.columns.get? (t.columns.length - 3) = some den := by
  have hlt : t.columns.length - 3 < t.columns.length := by omega
  have hg : t.columns.get? (t.columns.length - 3) =
      some (t.columns.get ⟨_, hlt⟩) := List.get?_eq_get hlt
  refine ⟨t.columns.get ⟨_, hlt⟩, ?_, hg⟩
  unfold _get_denominator
  rw [if_pos h, hg]

theorem _get_denominator_ok_inv (t : DataFrame) (den : String)
    (h : _get_denominator t = Except.ok den) :
    3 ≤ t.columns.length ∧
      t.columns.get? (t.columns.length - 3) = some den := by
  unfold _get_denominator at h
  split_ifs at h with h3
  refine ⟨h3, ?_⟩
  split at h
  · rename_i c hc
    cases h
    exact hc
  · cases h

theorem drop_rows_ok_inv (t t' : DataFrame) (h : drop_rows t = Except.ok t') :
    t'.columns = t.columns ∧ t'.attrs = t.attrs := by
  unfold drop_rows at h
  split at h
  · cases h
  · cases h
  · split at h
    · cases h
    · split at h
      · cases h
      · cases h
        exact ⟨rfl, rfl⟩

theorem drop_rows_eq_filter (t : DataFrame) (c : String) (i : Nat)
    (hden : dict_get t.attrs "denominator" = some (AttrVal.str c))
    (hidx : col_index t.columns c = some i)
    (hnum : ∀ r ∈ t.rows, (val_gt0 (r.getD i Value.na)).isSome) :
    drop_rows t = Except.ok ⟨t.columns,
      t.rows.filter (fun r => (val_gt0 (r.getD i Value.na)).getD false),
      t.attrs⟩ := by
  have htrav : optTraverse val_gt0 (t.rows.map (fun r => r.getD i Value.na)) =
      some ((t.rows.map (fun r => r.getD i Value.na)).map
        (fun v => (val_gt0 v).getD false)) := by
    apply optTraverse_eq_map
    intro v hv
    obtain ⟨r, hr, rfl⟩ := List.mem_map.mp hv
    have hs := hnum r hr
    cases hval : val_gt0 (r.getD i Value.na) with
    | none => rw [hval] at hs; cases hs
    | some b => simp
  simp only [drop_rows, hden, hidx, htrav, List.map_map]
  rw [maskFilter_map]
  rfl

theorem quantile_interp_single (q p : ℚ) : quantile_interp [q] p = q := by
  simp [quantile_interp]

theorem frameValue_elim (s : Store) (a : Nat) (t : DataFrame)
    (h : s.frameValue a = some t) :
    ∃ fr, s.frames.get? a = some fr ∧
      s.dicts.get? fr.attrsAddr = some t.attrs ∧
      fr.columns = t.columns ∧ fr.rows = t.rows := by
  unfold Store.frameValue at h
  split at h
  · cases h
  · rename_i fr hfr
    split at h
    · cases h
    · rename_i d hd
      cases h
      exact ⟨fr, hfr, hd, rfl, rfl⟩

theorem frameValue_append_old (s : Store) (a : Nat) (t : DataFrame)
    (h : s.frameValue a = some t) (fr' : FrameObj) (d' : Attrs) :
    Store.frameValue ⟨s.frames ++ [fr'], s.dicts ++ [d']⟩ a = some t := by
  obtain ⟨fr, hfr, hd, hc, hr⟩ := frameValue_elim s a t h
  obtain ⟨hlt, -⟩ := List.get?_eq_some.mp hfr
  obtain ⟨hlt2, -⟩ := List.get?_eq_some.mp hd
  unfold Store.frameValue
  rw [List.get?_append hlt, hfr]
  dsimp only
  rw [List.get?_append hlt2, hd, hc, hr]

theorem frameValue_new (s : Store) (t' : DataFrame) :
    Store.frameValue
      ⟨s.frames ++ [⟨t'.columns, t'.rows, s.dicts.length⟩],
       s.dicts ++ [t'.attrs]⟩ s.frames.length = some t' := by
  unfold Store.frameValue
  dsimp only
  rw [List.get?_concat_length]
  dsimp only
  rw [List.get?_concat_length]

/-! ## Claim theorems -/

/-- C2: for every Measure Table (denominator metadata naming an existing,
numeric column), `drop_rows` returns exactly the input rows whose
denominator value is strictly greater than zero, as a stable filter with
columns and metadata unchanged; when no row qualifies the result has zero
rows and no error is raised. -/
theorem drop_rows_keeps_positive_denominator_rows (t : DataFrame)
    (c : String) (i : Nat)
    (hden : dict_get t.attrs "denominator" = some (AttrVal.str c))
    (hidx : col_index t.columns c = some i)
    (hnum : ∀ r ∈ t.rows, (val_gt0 (r.getD i Value.na)).isSome) :
    drop_rows t = Except.ok ⟨t.columns,
      t.rows.filter (fun r => (val_gt0 (r.getD i Value.na)).getD false),
      t.attrs⟩ ∧
    ((∀ r ∈ t.rows, val_gt0 (r.getD i Value.na) = some false) →
      drop_rows t = Except.ok ⟨t.columns, ([] : List (List Value)), t.attrs⟩) := by
  have h1 := drop_rows_eq_filter t c i hden hidx hnum
  refine ⟨h1, fun hall => ?_⟩
  rw [h1]
  have hfil : t.rows.filter
      (fun r => (val_gt0 (r.getD i Value.na)).getD false) = [] := by
    apply List.filter_eq_nil.mpr
    intro r hr
    rw [hall r hr]
    simp
  rw [hfil]

/-- C2 witness: the fixture of `test_drop_zero_denominator_rows` keeps
exactly its second row. -/
theorem drop_rows_keeps_positive_denominator_rows_witness :
    drop_rows testFilterTable = Except.ok ⟨testFilterTable.columns,
      testFilterTable.rows.filter
        (fun r => (val_gt0 (r.getD 2 Value.na)).getD false),
      testFilterTable.attrs⟩ :=
  (drop_rows_keeps_positive_denominator_rows testFilterTable "population" 2
    (by decide) (by decide) (by decide)).1

/-- C8: on a table whose denominator column is entirely strictly positive,
`drop_rows` succeeds with a result equal in rows, columns and metadata
content to the input (so a second application gives the same result), yet
at the heap level it still allocates a distinct instance. -/
theorem drop_rows_identity_on_positive (t : DataFrame) (c : String) (i : Nat)
    (hden : dict_get t.attrs "denominator" = some (AttrVal.str c))
    (hidx : col_index t.columns c = some i)
    (hpos : ∀ r ∈ t.rows, val_gt0 (r.getD i Value.na) = some true) :
    drop_rows t = Except.ok t ∧
    (drop_rows t).bind drop_rows = drop_rows t ∧
    (∀ a s, s.frameValue a = some t →
      ∃ pr, drop_rows_st a s = some pr ∧ pr.1 ≠ a ∧
        pr.2.frameValue pr.1 = some t) := by
  have hnum : ∀ r ∈ t.rows, (val_gt0 (r.getD i Value.na)).isSome := by
    intro r hr; rw [hpos r hr]; rfl
  have h1 := drop_rows_eq_filter t c i hden hidx hnum
  have hfil : t.rows.filter
      (fun r => (val_gt0 (r.getD i Value.na)).getD false) = t.rows := by
    apply List.filter_eq_self.mpr
    intro r hr
    rw [hpos r hr]
    rfl
  have hok : drop_rows t = Except.ok t := by rw [h1, hfil]
  refine ⟨hok, ?_, ?_⟩
  · rw [hok]; exact hok
  · intro a s hval
    obtain ⟨fr, hfr, hd, -, -⟩ := frameValue_elim s a t hval
    obtain ⟨hlt, -⟩ := List.get?_eq_some.mp hfr
    refine ⟨(s.frames.length,
      ⟨s.frames ++ [⟨t.columns, t.rows, s.dicts.length⟩],
       s.dicts ++ [t.attrs]⟩), ?_, Nat.ne_of_gt hlt, ?_⟩
    · simp [drop_rows_st, hval, hok]
    · exact frameValue_new s t

/-- C8 witness: the all-positive variant of the row-filter fixture. -/
theorem drop_rows_identity_on_positive_witness :
    drop_rows ⟨["practice", "population", "value", "date"],
      [[Value.int 1, Value.int 2, Value.int 0, Value.date 18628]],
      [("denominator", AttrVal.str "population")]⟩ =
    Except.ok ⟨["practice", "population", "value", "date"],
      [[Value.int 1, Value.int 2, Value.int 0, Value.date 18628]],
      [("denominator", AttrVal.str "population")]⟩ :=
  (drop_rows_identity_on_positive _ "population" 1
    (by decide) (by decide) (by decide)).1

/-- C6: `drop_rows` leaves the input table and its metadata unchanged and
returns a fresh table whose attrs dictionary has the same contents but an
independent identity: mutating the result's attrs cannot touch the
input's. -/
theorem drop_rows_returns_fresh_objects (a : Nat) (s : Store)
    (t t' : DataFrame)
    (hval : s.frameValue a = some t) (hok : drop_rows t = Except.ok t') :
    ∃ a' s', drop_rows_st a s = some (a', s') ∧
      a' ≠ a ∧
      s'.frameValue a = some t ∧
      s'.frameValue a' = some t' ∧
      t'.attrs = t.attrs ∧
      (s'.frames.get? a').map FrameObj.attrsAddr ≠
        (s'.frames.get? a).map FrameObj.attrsAddr ∧
      (∀ d s'', s'.setFrameAttrs a' d = some s'' →
        s''.frameValue a = some t) := by
  obtain ⟨fr, hfr, hd, hc, hr⟩ := frameValue_elim s a t hval
  obtain ⟨hlt, -⟩ := List.get?_eq_some.mp hfr
  obtain ⟨hlt2, -⟩ := List.get?_eq_some.mp hd
  refine ⟨s.frames.length,
    ⟨s.frames ++ [⟨t'.columns, t'.rows, s.dicts.length⟩],
     s.dicts ++ [t'.attrs]⟩, ?_, Nat.ne_of_gt hlt, ?_, ?_, ?_, ?_, ?_⟩
  · simp [drop_rows_st, hval, hok]
  · exact frameValue_append_old s a t hval _ _
  · exact frameValue_new s t'
  · exact (drop_rows_ok_inv t t' hok).2
  · rw [List.get?_concat_length, List.get?_append hlt, hfr]
    simp
    omega
  · intro d s'' hset
    unfold Store.setFrameAttrs at hset
    rw [List.get?_concat_length] at hset
    cases hset
    unfold Store.frameValue
    dsimp only
    rw [List.get?_append hlt, hfr]
    dsimp only
    rw [List.get?_set_ne _ _ (by omega), List.get?_append hlt2, hd, hc, hr]

/-- C3: the `is_measure_table` guard, wrapped around any function `f` and
applied to any table and extra arguments: if any of the `value`/`date`
columns or the `id`/`denominator`/`group_by` metadata keys is missing, the
call fails with an assertion message naming a missing column or key and `f`
runs zero times; otherwise `f` runs exactly once on the identical arguments
and its result is returned unchanged. -/
theorem is_measure_table_guards {α β : Type} (f : DataFrame → β → α)
    (t : DataFrame) (b : β) :
    (("value" ∉ t.columns ∨ "date" ∉ t.columns ∨
      dict_get t.attrs "id" = none ∨
      dict_get t.attrs "denominator" = none ∨
      dict_get t.attrs "group_by" = none) →
      ∃ m, is_measure_table f t b = (Except.error m, 0) ∧ names_missing t m) ∧
    (("value" ∈ t.columns ∧ "date" ∈ t.columns ∧
      dict_get t.attrs "id" ≠ none ∧
      dict_get t.attrs "denominator" ≠ none ∧
      dict_get t.attrs "group_by" ≠ none) →
      is_measure_table f t b = (Except.ok (f t b), 1)) := by
  constructor
  · intro hmiss
    by_cases h1 : "value" ∈ t.columns
    · by_cases h2 : "date" ∈ t.columns
      · by_cases h3 : dict_get t.attrs "id" = none
        · refine ⟨"Missing id attribute", ?_, Or.inr (Or.inr (Or.inl ⟨rfl, h3⟩))⟩
          unfold is_measure_table is_measure_table_checks
          rw [if_neg (not_not_intro h1), if_neg (not_not_intro h2), if_pos h3]
        · by_cases h4 : dict_get t.attrs "denominator" = none
          · refine ⟨"Missing denominator attribute", ?_,
              Or.inr (Or.inr (Or.inr (Or.inl ⟨rfl, h4⟩)))⟩
            unfold is_measure_table is_measure_table_checks
            rw [if_neg (not_not_intro h1), if_neg (not_not_intro h2),
              if_neg h3, if_pos h4]
          · by_cases h5 : dict_get t.attrs "group_by" = none
            · refine ⟨"Missing group_by attribute", ?_,
                Or.inr (Or.inr (Or.inr (Or.inr ⟨rfl, h5⟩)))⟩
              unfold is_measure_table is_measure_table_checks
              rw [if_neg (not_not_intro h1), if_neg (not_not_intro h2),
                if_neg h3, if_neg h4, if_pos h5]
            · rcases hmiss with h | h | h | h | h
              · exact absurd h1 h
              · exact absurd h2 h
              · exact absurd h h3
              · exact absurd h h4
              · exact absurd h h5
      · refine ⟨"Missing date column", ?_, Or.inr (Or.inl ⟨rfl, h2⟩)⟩
        unfold is_measure_table is_measure_table_checks
        rw [if_neg (not_not_intro h1), if_pos h2]
    · refine ⟨"Missing value column", ?_, Or.inl ⟨rfl, h1⟩⟩
      unfold is_measure_table is_measure_table_checks
      rw [if_pos h1]
  · rintro ⟨p1, p2, p3, p4, p5⟩
    unfold is_measure_table is_measure_table_checks
    rw [if_neg (not_not_intro p1), if_neg (not_not_intro p2),
      if_neg p3, if_neg p4, if_neg p5]

/-- C3 witness: a table with no `value` column is rejected with the
matching message and the wrapped function is not invoked. -/
theorem is_measure_table_guards_witness :
    ∃ m, is_measure_table (fun (t : DataFrame) (_ : Unit) => t)
      (⟨[], [], []⟩ : DataFrame) () = (Except.error m, 0) ∧
      names_missing (⟨[], [], []⟩ : DataFrame) m :=
  (is_measure_table_guards (fun t _ => t) ⟨[], [], []⟩ ()).1
    (Or.inl (by decide))

/-- C9: a table that satisfies every check of the Measure Table validator
but whose `denominator` attr names a column that does not exist passes the
guard (the wrapped row filter runs exactly once), and the row filter then
fails with a lookup error — the validator checks only that the metadata key
exists, never that the named column does. -/
theorem validator_misses_absent_denominator_column (t : DataFrame)
    (c : String)
    (hv : "value" ∈ t.columns) (hd : "date" ∈ t.columns)
    (hid : dict_get t.attrs "id" ≠ none)
    (hden : dict_get t.attrs "denominator" = some (AttrVal.str c))
    (hgb : dict_get t.attrs "group_by" ≠ none)
    (hnc : c ∉ t.columns) :
    is_measure_table (fun tt (_ : Unit) => drop_rows tt) t () =
      (Except.ok (drop_rows t), 1) ∧
    drop_rows t = Except.error PyErr.keyError := by
  have hden' : dict_get t.attrs "denominator" ≠ none := by
    rw [hden]; exact Option.some_ne_none _
  constructor
  · unfold is_measure_table is_measure_table_checks
    rw [if_neg (not_not_intro hv), if_neg (not_not_intro hd),
      if_neg hid, if_neg hden', if_neg hgb]
  · unfold drop_rows
    rw [hden]
    dsimp only
    rw [col_index_none_of_not_mem t.columns c hnc]

/-- C9 witness: `denominator` names the absent column `population`. -/
theorem validator_misses_absent_denominator_column_witness :
    is_measure_table (fun tt (_ : Unit) => drop_rows tt)
      (⟨["value", "date"], [],
        [("id", AttrVal.str "x"),
         ("denominator", AttrVal.str "population"),
         ("group_by", AttrVal.strList [])]⟩ : DataFrame) () =
      (Except.ok (drop_rows ⟨["value", "date"], [],
        [("id", AttrVal.str "x"),
         ("denominator", AttrVal.str "population"),
         ("group_by", AttrVal.strList [])]⟩), 1) ∧
    drop_rows (⟨["value", "date"], [],
      [("id", AttrVal.str "x"),
       ("denominator", AttrVal.str "population"),
       ("group_by", AttrVal.strList [])]⟩ : DataFrame) =
      Except.error PyErr.keyError :=
  validator_misses_absent_denominator_column _ "population"
    (by decide) (by decide) (by decide) (by decide) (by decide) (by decide)

/-- C4: calling `get_measure_tables` on any path that is not a directory
(a file, or a nonexistent path) builds the generator without error —
the check is lazy — and the first access yields nothing and raises the
non-directory error (Python `AttributeError`; the spec's taxonomy names
this condition `InvalidInputError`). -/
theorem get_measure_tables_rejects_non_directory (p : Option FsNode)
    (h : ∀ n, p = some n → n.isDir = false) :
    (get_measure_tables_call p).run = ([], some PyErr.attributeError) := by
  cases p with
  | none => rfl
  | some n =>
    cases n with
    | file c => rfl
    | dir es =>
      have hh := h (FsNode.dir es) rfl
      simp [FsNode.isDir] at hh

/-- C4 witness: a regular file is not a directory. -/
theorem get_measure_tables_rejects_non_directory_witness :
    (get_measure_tables_call (some (FsNode.file exampleCsv))).run =
      ([], some PyErr.attributeError) :=
  get_measure_tables_rejects_non_directory _ (by intro n hn; cases hn; rfl)

/-- C1: every table the discovery generator yields carries `attrs["id"]`
equal to the id captured from the filename, `attrs["denominator"]` equal to
the third-from-last column name, and `attrs["group_by"]` equal to all
column names but the last four, in order; and for
`measure_sbp_by_practice.csv` with columns
`[practice, has_sbp_event, population, value, date]` this gives
`id = "sbp_by_practice"`, `denominator = "population"`,
`group_by = ["practice"]`. -/
theorem get_measure_tables_attaches_metadata :
    (∀ (name : String) (node : FsNode) (t : DataFrame),
      process_entry (name, node) = some (Except.ok t) →
      ∃ mid content, node = FsNode.file content ∧
        measure_fname_match name = some mid ∧
        3 ≤ content.columns.length ∧
        t.columns = content.columns ∧ t.rows = content.rows ∧
        dict_get t.attrs "id" = some (AttrVal.str mid) ∧
        dict_get t.attrs "denominator" = some (AttrVal.str
          (content.columns.getD (content.columns.length - 3) "")) ∧
        dict_get t.attrs "group_by" = some (AttrVal.strList
          (content.columns.take (content.columns.length - 4)))) ∧
    get_measure_tables (some (FsNode.dir
      [("measure_sbp_by_practice.csv", FsNode.file exampleCsv)])) =
      ([exampleParsed], none) ∧
    dict_get exampleParsed.attrs "id" = some (AttrVal.str "sbp_by_practice") ∧
    dict_get exampleParsed.attrs "denominator" =
      some (AttrVal.str "population") ∧
    dict_get exampleParsed.attrs "group_by" =
      some (AttrVal.strList ["practice"]) := by
  refine ⟨?_, by decide, by decide, by decide, by decide⟩
  intro name node t h
  cases node with
  | dir es => simp [process_entry] at h
  | file content =>
    cases hm : measure_fname_match name with
    | none => simp [process_entry, hm] at h
    | some mid =>
      simp only [process_entry, hm, Option.some.injEq] at h
      unfold attach_attrs at h
      cases hden : _get_denominator content with
      | error e => rw [hden] at h; cases h
      | ok den =>
        rw [hden] at h
        cases h
        obtain ⟨h3, hg⟩ := _get_denominator_ok_inv content den hden
        refine ⟨mid, content, rfl, rfl, h3, rfl, rfl, ?_, ?_, ?_⟩
        · rw [dict_get_set_ne _ _ _ _ (by decide),
            dict_get_set_ne _ _ _ _ (by decide), dict_get_set_self]
        · rw [dict_get_set_ne _ _ _ _ (by decide), dict_get_set_self,
            List.getD_eq_get?, hg]
          rfl
        · rw [dict_get_set_self]
          rfl

/-- C1 witness: the round-trip example entry processed concretely. -/
theorem get_measure_tables_attaches_metadata_witness :
    ∃ mid content, FsNode.file exampleCsv = FsNode.file content ∧
      measure_fname_match "measure_sbp_by_practice.csv" = some mid ∧
      3 ≤ content.columns.length ∧
      exampleParsed.columns = content.columns ∧
      exampleParsed.rows = content.rows ∧
      dict_get exampleParsed.attrs "id" = some (AttrVal.str mid) ∧
      dict_get exampleParsed.attrs "denominator" = some (AttrVal.str
        (content.columns.getD (content.columns.length - 3) "")) ∧
      dict_get exampleParsed.attrs "group_by" = some (AttrVal.strList
        (content.columns.take (content.columns.length - 4))) :=
  get_measure_tables_attaches_metadata.1 "measure_sbp_by_practice.csv"
    (FsNode.file exampleCsv) exampleParsed (by rfl)

/-- C5 counterexample: the filename `measure_a.csvx` is not of the form
`measure_<id>.csv`, yet a directory containing only that file yields one
parsed table and no error — `re.match` anchors at the start only, so the
scan accepts names with trailing characters after `.csv`, contradicting the
claim that every entry not of that exact form is skipped. -/
theorem get_measure_tables_exact_form_cex :
    spec_exact_measure_name "measure_a.csvx" = false ∧
    (get_measure_tables (some (FsNode.dir
      [("measure_a.csvx", FsNode.file exampleCsv)]))).1.length = 1 ∧
    (get_measure_tables (some (FsNode.dir
      [("measure_a.csvx", FsNode.file exampleCsv)]))).2 = none := by
  refine ⟨by decide, by rfl, by rfl⟩

/-- C5 (amended): over any directory, the scan yields a parsed table
exactly for each regular-file entry whose name matches
`measure_(?P<id>\w+)\.csv` as a prefix (`re.match`: trailing characters
after `.csv` are accepted), in directory order; subdirectories and
non-matching names are silently skipped, and zero matching entries give an
empty yield with no error. (The proviso that each matching file has at
least three columns keeps the metadata derivation of each yielded table
from raising; see the indexing claim.) -/
theorem get_measure_tables_yields_prefix_matches (es : List (String × FsNode))
    (hcols : ∀ name c, (name, FsNode.file c) ∈ es →
      measure_fname_match name ≠ none → 3 ≤ c.columns.length) :
    get_measure_tables (some (FsNode.dir es)) =
      (es.filterMap expected_yield, none) := by
  show run_entries es = _
  induction es with
  | nil => rfl
  | cons e rest ih =>
    have ihh := ih (fun name c hm hmm =>
      hcols name c (List.mem_cons_of_mem _ hm) hmm)
    obtain ⟨name, node⟩ := e
    cases node with
    | dir ds =>
      simp [run_entries, process_entry, expected_yield,
        List.filterMap_cons, ihh]
    | file c =>
      cases hm : measure_fname_match name with
      | none =>
        simp [run_entries, process_entry, expected_yield, hm,
          List.filterMap_cons, ihh]
      | some mid =>
        have h3 : 3 ≤ c.columns.length :=
          hcols name c (List.mem_cons_self _ _) (by simp [hm])
        obtain ⟨den, hden, -⟩ := _get_denominator_ok c h3
        have hex : ∃ tt, attach_attrs mid c = Except.ok tt := by
          unfold attach_attrs
          rw [hden]
          exact ⟨_, rfl⟩
        obtain ⟨tt, hat⟩ := hex
        simp [run_entries, process_entry, expected_yield, hm, hat,
          List.filterMap_cons, ihh]

/-- C5 witness: one matching file, one non-matching file, one
subdirectory. -/
theorem get_measure_tables_yields_prefix_matches_witness :
    get_measure_tables (some (FsNode.dir
      [("measure_sbp_by_practice.csv", FsNode.file exampleCsv),
       ("input_2019-01-01.csv", FsNode.file exampleCsv),
       ("measures", FsNode.dir [])])) =
      ([("measure_sbp_by_practice.csv", FsNode.file exampleCsv),
        ("input_2019-01-01.csv", FsNode.file exampleCsv),
        ("measures", FsNode.dir [])].filterMap expected_yield, none) := by
  apply get_measure_tables_yields_prefix_matches
  intro name c hm hmm
  simp only [List.mem_cons, List.not_mem_nil, or_false, Prod.mk.injEq] at hm
  rcases hm with ⟨-, hc⟩ | ⟨-, hc⟩ | ⟨-, hc⟩
  · cases hc; decide
  · cases hc; decide
  · cases hc

/-- C10: for a matching file whose parsed table has fewer than three
columns, the unconditional `columns[-3]` lookup raises `IndexError` during
metadata derivation — the scan yields nothing for such a file (and, if it
is the first matching entry, nothing at all); a table with exactly four
columns derives its metadata without error and gets `group_by == []`. -/
theorem metadata_derivation_indexing :
    (∀ (mid : String) (t : DataFrame), t.columns.length < 3 →
      attach_attrs mid t = Except.error PyErr.indexError) ∧
    (∀ (mid : String) (t : DataFrame), t.columns.length = 4 →
      ∃ t', attach_attrs mid t = Except.ok t' ∧
        dict_get t'.attrs "group_by" = some (AttrVal.strList [])) ∧
    (∀ (name : String) (t : DataFrame) (es : List (String × FsNode)),
      (measure_fname_match name).isSome → t.columns.length < 3 →
      get_measure_tables (some (FsNode.dir ((name, FsNode.file t) :: es))) =
        ([], some PyErr.indexError)) := by
  have part1 : ∀ (mid : String) (t : DataFrame), t.columns.length < 3 →
      attach_attrs mid t = Except.error PyErr.indexError := by
    intro mid t hlt
    unfold attach_attrs _get_denominator
    rw [if_neg (by omega)]
  refine ⟨part1, ?_, ?_⟩
  · intro mid t h4
    have h3 : 3 ≤ t.columns.length := by omega
    obtain ⟨den, hden, -⟩ := _get_denominator_ok t h3
    refine ⟨⟨t.columns, t.rows,
      dict_set (dict_set (dict_set t.attrs "id" (AttrVal.str mid))
        "denominator" (AttrVal.str den)) "group_by"
        (AttrVal.strList (_get_group_by t))⟩, ?_, ?_⟩
    · unfold attach_attrs
      rw [hden]
    · rw [dict_get_set_self]
      unfold _get_group_by
      rw [h4]
      rfl
  · intro name t es hm hlt
    show run_entries ((name, FsNode.file t) :: es) = _
    cases hmm : measure_fname_match name with
    | none => rw [hmm] at hm; cases hm
    | some mid =>
      simp [run_entries, process_entry, hmm, part1 mid t hlt]

/-- C10 witness: a two-column table aborts metadata derivation. -/
theorem metadata_derivation_indexing_witness :
    attach_attrs "x" (⟨["a", "date"], [], []⟩ : DataFrame) =
      Except.error PyErr.indexError :=
  metadata_derivation_indexing.1 "x" ⟨["a", "date"], [], []⟩ (by decide)

/-- C7: on a table whose rows all share one date — here, a table with
exactly one row, of value `v` (as a rational) and date `d` — the decile
aggregator outputs exactly nine rows, the `deciles` column running through
0.1 … 0.9 in ascending order, the `date` column constant, and the `value`
column equal to `v` as a float in every row. -/
theorem get_deciles_table_single_row (t : DataFrame) (di vi : Nat)
    (d : Value) (q : ℚ) (r : List Value)
    (hdi : col_index t.columns "date" = some di)
    (hvi : col_index t.columns "value" = some vi)
    (hrows : t.rows = [r])
    (hq : (r.getD vi Value.na).toQ = some q)
    (hd : r.getD di Value.na = d) :
    get_deciles_table t = Except.ok ⟨["date", "deciles", "value"],
      deciles.map (fun p => [d, Value.float p, Value.float q]), t.attrs⟩ ∧
    deciles = [1/10, 2/10, 3/10, 4/10, 5/10, 6/10, 7/10, 8/10, 9/10] ∧
    List.Chain' (· < ·) deciles ∧
    (deciles.map (fun p => [d, Value.float p, Value.float q])).length = 9 := by
  refine ⟨?_, rfl, by norm_num [deciles, List.chain'_cons], by simp [deciles]⟩
  unfold get_deciles_table
  rw [hdi, hvi, hrows]
  dsimp only
  have hg : ((r.getD vi Value.na).toQ).map
      (fun qq => (r.getD di Value.na, qq)) = some (d, q) := by
    rw [hq, hd]
    rfl
  simp only [optTraverse, hg]
  simp only [List.map_cons, List.map_nil, List.dedup_nil, List.dedup_cons_of_not_mem,
    List.not_mem_nil, not_false_iff]
  simp only [sortByKey, insertByKey]
  simp [List.flatMap_cons, List.flatMap_nil, List.filter, sortQ, insertSorted,
    quantile_interp_single]

/-- C7 witness: the single-row fixture of `test_get_deciles_table`. -/
theorem get_deciles_table_single_row_witness :
    get_deciles_table testSingleRowTable = Except.ok
      ⟨["date", "deciles", "value"],
       deciles.map (fun p =>
         [Value.date 18628, Value.float p, Value.float 1]),
       testSingleRowTable.attrs⟩ :=
  (get_deciles_table_single_row testSingleRowTable 4 3 (Value.date 18628) 1
    [Value.int 1, Value.int 1, Value.int 1, Value.int 1, Value.date 18628]
    (by decide) (by decide) rfl (by decide) (by decide)).1

/-- C6 witness: filtering the two-row fixture in a concrete heap allocates
a fresh frame and a fresh attrs dictionary. -/
theorem drop_rows_returns_fresh_objects_witness :
    ∃ a' s', drop_rows_st 0 exampleStore = some (a', s') ∧
      a' ≠ 0 ∧
      s'.frameValue 0 = some testFilterTable ∧
      s'.frameValue a' = some testFilteredTable ∧
      testFilteredTable.attrs = testFilterTable.attrs ∧
      (s'.frames.get? a').map FrameObj.attrsAddr ≠
        (s'.frames.get? 0).map FrameObj.attrsAddr ∧
      (∀ d s'', s'.setFrameAttrs a' d = some s'' →
        s''.frameValue 0 = some testFilterTable) :=
  drop_rows_returns_fresh_objects 0 exampleStore testFilterTable
    testFilteredTable (by rfl) (by rfl)
